import Mathlib

/-!
# Relative pose estimation from RGB features (ntk)

A shallow embedding of `ntk/geometry/relative_pose_estimator_from_image.cpp`.

* Single and double precision values are modelled by the rational numbers they
  denote; the quotient `error /= ref_points.size()` is taken exactly.
* The capabilities implemented in other translation units (feature extraction
  and matching, the RANSAC solver, the camera-frame conversions, the image
  filters, the cloud sampler and the RGBD-ICP refiner) are deterministic
  functions collected in `Capabilities`.
* A failed `ntk_assert` / `ntk_ensure` and an access through a null pointer or
  outside a vector are outcomes of type `Fatal`.
* Every invocation of the robust solver and of the dense refiner is recorded in
  a list of `Call`s returned next to the result.
-/

set_option linter.unusedVariables false

namespace ntk

/-! ## Data model -/

/-- The type `cv::Point3f`. -/
structure Point3f where
  x : ℚ
  y : ℚ
  z : ℚ
  deriving DecidableEq

/-- The type `cv::Point2f`. -/
structure Point2f where
  x : ℚ
  y : ℚ
  deriving DecidableEq

/-- Entries of a `cv::Mat` in row-major order. -/
abbrev Mat := List ℚ

/-- Modelled from the spec: the class `Pose3D` is declared outside the given
sources. A pose is a rotation, a translation and a validity flag (`isValid()`). -/
structure Pose3D where
  valid : Bool
  rotation : Point3f
  translation : Point3f
  deriving DecidableEq

/-- Modelled from the spec: the default constructor `Pose3D()` gives the pose
that `resetTarget` calls invalid. -/
def Pose3D.new : Pose3D := ⟨false, ⟨0, 0, 0⟩, ⟨0, 0, 0⟩⟩

/-- The member function `Pose3D::isValid()`. -/
def Pose3D.isValid (p : Pose3D) : Bool := p.valid

/-- Calibration of an RGB-D sensor, as read through `image.calibration()->...`;
`depth_pose` is the pose the member pointer `depth_pose` refers to. -/
structure RGBDCalibration where
  rgb_intrinsics : Mat
  depth_intrinsics : Mat
  R : Mat
  T : Mat
  depth_pose : Pose3D
  deriving DecidableEq

/-- The parts of `RGBDImage` the estimator reads. `calibration = none` is the
null calibration pointer, `mappedDepth = none` is `mappedDepth().data == 0`. -/
structure RGBDImage where
  rgb : List ℕ
  depth : List ℚ
  mappedDepth : Option (List ℚ)
  calibration : Option RGBDCalibration
  deriving DecidableEq

/-- A keypoint `FeaturePoint`: pixel location `pt`, sampled `depth`, back-projected
location `p3d` and its descriptor. -/
structure FeaturePoint where
  pt : Point2f
  depth : ℚ
  p3d : Point3f
  descriptor : List ℚ
  deriving DecidableEq

/-- The class `FeatureSet`: an ordered sequence of feature points. -/
structure FeatureSet where
  locations : List FeaturePoint
  deriving DecidableEq

/-- The value of `new FeatureSet`: no locations. -/
def FeatureSet.new : FeatureSet := ⟨[]⟩

/-- The expression `locations()[i]` for an `int` index: `none` outside the vector. -/
def FeatureSet.at (fs : FeatureSet) (i : ℤ) : Option FeaturePoint :=
  if 0 ≤ i then fs.locations[i.toNat]? else none

/-- The type `cv::DMatch` (the two indices the estimator reads). -/
structure DMatch where
  queryIdx : ℤ
  trainIdx : ℤ
  deriving DecidableEq

/-- Feature extraction parameters, an uninterpreted configuration value. -/
abbrev FeatureSetParams := ℕ

/-- A point with its normal, `pcl::PointNormal`. -/
structure PointNormal where
  point : Point3f
  normal : Point3f
  deriving DecidableEq

/-- The type `pcl::PointCloud<pcl::PointNormal>`. -/
abbrev PointCloud := List PointNormal

/-- Outcomes that abort the operation. -/
inductive Fatal where
  | assert_failure
  | ensure_failure
  | invalid_access
  deriving DecidableEq

/-- What `rms_optimize_ransac` leaves behind: the returned residual, the pose
written through its first argument and the mask written to `valid_points`. -/
structure RansacResult where
  error : ℚ
  pose : Pose3D
  valid_points : List Bool
  deriving DecidableEq

/-- The refiner object `RelativePoseEstimatorRGBDICP<pcl::PointNormal>` as
configured through its setters. -/
structure RelativePoseEstimatorRGBDICP where
  color_pose : Pose3D
  color_ref_points : List Point3f
  color_img_points : List Point3f
  initial_source_pose : Pose3D
  target_pose : Pose3D
  source_cloud : PointCloud
  target_cloud : PointCloud
  deriving DecidableEq

namespace RelativePoseEstimatorRGBDICP

/-- A freshly constructed refiner. -/
def new : RelativePoseEstimatorRGBDICP :=
  ⟨Pose3D.new, [], [], Pose3D.new, Pose3D.new, [], []⟩

def setColorFeatures (e : RelativePoseEstimatorRGBDICP) (pose : Pose3D)
    (ref_points img_points : List Point3f) : RelativePoseEstimatorRGBDICP :=
  { e with color_pose := pose, color_ref_points := ref_points, color_img_points := img_points }

def setInitialSourcePoseEstimate (e : RelativePoseEstimatorRGBDICP) (pose : Pose3D) :
    RelativePoseEstimatorRGBDICP :=
  { e with initial_source_pose := pose }

def setTargetPose (e : RelativePoseEstimatorRGBDICP) (pose : Pose3D) :
    RelativePoseEstimatorRGBDICP :=
  { e with target_pose := pose }

def setSourceCloud (e : RelativePoseEstimatorRGBDICP) (cloud : PointCloud) :
    RelativePoseEstimatorRGBDICP :=
  { e with source_cloud := cloud }

def setTargetCloud (e : RelativePoseEstimatorRGBDICP) (cloud : PointCloud) :
    RelativePoseEstimatorRGBDICP :=
  { e with target_cloud := cloud }

end RelativePoseEstimatorRGBDICP

/-- The functions the estimator calls that are defined in other translation
units. `matchWith` is the matcher applied to the constant ratio argument
`0.8f*0.8f`; `rgbd_icp` is the refiner's `estimateNewPose()` paired with its
`estimatedSourcePose()`. -/
structure Capabilities where
  rms_optimize_ransac : Pose3D → List Point3f → List Point3f → Bool → RansacResult
  extractFromImage : FeatureSet → RGBDImage → FeatureSetParams → FeatureSet
  compute3dLocation : FeatureSet → Pose3D → FeatureSet
  matchWith : FeatureSet → FeatureSet → List DMatch
  toRightCamera : Pose3D → Mat → Mat → Mat → Pose3D
  toLeftCamera : Pose3D → Mat → Mat → Mat → Pose3D
  bilateralFilter : RGBDImage → RGBDImage
  computeNormals : RGBDImage → RGBDImage
  rgbdImageToPointCloud : RGBDImage → PointCloud
  subsample : PointCloud → ℕ → PointCloud
  rgbd_icp : RelativePoseEstimatorRGBDICP → Bool × Pose3D

/-- An invocation of the robust solver or of the dense refiner, with what it
was handed. -/
inductive Call where
  | rms_optimize_ransac (seed : Pose3D) (ref_points img_points : List Point3f)
      (use_depth : Bool)
  | rgbd_icp (estimator : RelativePoseEstimatorRGBDICP)
  deriving DecidableEq

/-- The color-feature pairs handed to the refiner by a call, if it is a call of
the refiner. -/
def Call.colorFeatures : Call → Option (List Point3f × List Point3f)
  | .rms_optimize_ransac _ _ _ _ => none
  | .rgbd_icp estimator => some (estimator.color_ref_points, estimator.color_img_points)

/-- The member variables of `RelativePoseEstimatorFromRgbFeatures`. -/
structure RelativePoseEstimatorFromRgbFeatures where
  m_target_image : Option RGBDImage
  m_source_image : Option RGBDImage
  m_target_features : FeatureSet
  m_source_features : FeatureSet
  m_target_pose : Pose3D
  m_estimated_pose : Pose3D
  m_num_matches : ℕ
  m_min_matches : ℕ
  m_postprocess_with_rgbd_icp : Bool
  m_feature_parameters : FeatureSetParams
  deriving DecidableEq

/-- The single-precision literal `0.005f`: the binary32 value nearest to 0.005,
which is `10737418 * 2^(-31)`. Widening it to double for the comparison with
`error` does not change it. -/
def err_threshold : ℚ := 10737418 / 2147483648

/-- What the four-argument `estimateNewPose` leaves to its caller: the returned
boolean, the value of the reference argument `new_pose`, and the calls made. -/
structure PoseResult where
  ret : Bool
  new_pose : Pose3D
  calls : List Call
  deriving DecidableEq

namespace RelativePoseEstimatorFromRgbFeatures

/-- The loop `foreach_idx(i, matches)` of the four-argument `estimateNewPose`,
from the first remaining match on, with the vectors built so far. -/
def collectPoints (target_features image_features : FeatureSet) :
    List DMatch → List Point3f → List Point3f →
      Except Fatal (List Point3f × List Point3f)
  | [], ref_points, img_points => .ok (ref_points, img_points)
  | m :: rest, ref_points, img_points =>
    match target_features.at m.trainIdx, image_features.at m.queryIdx with
    | some ref_loc, some img_loc =>
      if ref_loc.depth > 0 then
        let img3d : Point3f := ⟨img_loc.pt.x, img_loc.pt.y, img_loc.depth⟩
        collectPoints target_features image_features rest
          (ref_points ++ [ref_loc.p3d]) (img_points ++ [img3d])
      else .error .assert_failure
    | _, _ => .error .invalid_access

/-- The loop `foreach_idx(i, valid_points)` of `optimizeWithRGBDICP`, from index
`i` on, with the vectors built so far. -/
def cleanPoints (ref_points img_points : List Point3f) :
    List Bool → ℕ → List Point3f → List Point3f →
      Except Fatal (List Point3f × List Point3f)
  | [], _, clean_ref_points, clean_img_points => .ok (clean_ref_points, clean_img_points)
  | v :: rest, i, clean_ref_points, clean_img_points =>
    if !v then cleanPoints ref_points img_points rest (i + 1) clean_ref_points clean_img_points
    else
      match ref_points[i]?, img_points[i]? with
      | some r, some p =>
        cleanPoints ref_points img_points rest (i + 1)
          (clean_ref_points ++ [r]) (clean_img_points ++ [p])
      | _, _ => .error .invalid_access

/-- Lines 79 to 117 of `optimizeWithRGBDICP`: the two frames are filtered and
turned into clouds, the source cloud is subsampled, and the refiner is
configured through its setters. -/
def configureRefiner (cap : Capabilities) (self : RelativePoseEstimatorFromRgbFeatures)
    (source_image target_image : RGBDImage) (new_pose : Pose3D)
    (ref_points img_points : List Point3f) : RelativePoseEstimatorRGBDICP :=
  let filtered_source_image := cap.computeNormals (cap.bilateralFilter source_image)
  let filtered_target_image := cap.computeNormals (cap.bilateralFilter target_image)
  let source_cloud := cap.rgbdImageToPointCloud filtered_source_image
  let target_cloud := cap.rgbdImageToPointCloud filtered_target_image
  let num_samples := 1000
  let sampled_source_cloud := cap.subsample source_cloud num_samples
  let estimator := RelativePoseEstimatorRGBDICP.new
  let estimator := estimator.setColorFeatures new_pose ref_points img_points
  let estimator := estimator.setInitialSourcePoseEstimate new_pose
  let estimator := estimator.setTargetPose self.m_target_pose
  let estimator := estimator.setSourceCloud sampled_source_cloud
  estimator.setTargetCloud target_cloud

/-- The member function `optimizeWithRGBDICP`. Its first parameter is passed by
value: the result is the value of that local `new_pose` when the function
returns, together with the calls made. -/
def optimizeWithRGBDICP (cap : Capabilities) (self : RelativePoseEstimatorFromRgbFeatures)
    (new_pose : Pose3D) (ref_points img_points : List Point3f) (valid_points : List Bool) :
    Except Fatal (Pose3D × List Call) :=
  match cleanPoints ref_points img_points valid_points 0 [] [] with
  | .error e => .error e
  | .ok (clean_ref_points, clean_img_points) =>
    match self.m_source_image, self.m_target_image with
    | some source_image, some target_image =>
      let estimator :=
        configureRefiner cap self source_image target_image new_pose ref_points img_points
      let ok := (cap.rgbd_icp estimator).1
      if !ok then .ok (new_pose, [Call.rgbd_icp estimator])
      else .ok ((cap.rgbd_icp estimator).2, [Call.rgbd_icp estimator])
    | _, _ => .error .invalid_access

/-- The four-argument `estimateNewPose(new_pose, image, image_features, matches)`. -/
def estimateNewPoseWithMatches (cap : Capabilities)
    (self : RelativePoseEstimatorFromRgbFeatures) (new_pose : Pose3D) (image : RGBDImage)
    (image_features : FeatureSet) (matches_ : List DMatch) : Except Fatal PoseResult :=
  match collectPoints self.m_target_features image_features matches_ [] [] with
  | .error e => .error e
  | .ok (ref_points, img_points) =>
    if ref_points.length < 10 then .ok ⟨false, new_pose, []⟩
    else
      let solved := cap.rms_optimize_ransac new_pose ref_points img_points false
      let calls := [Call.rms_optimize_ransac new_pose ref_points img_points false]
      let new_pose := solved.pose
      let error := solved.error / (ref_points.length : ℚ)
      if error > err_threshold then .ok ⟨false, new_pose, calls⟩
      else if self.m_postprocess_with_rgbd_icp then
        match optimizeWithRGBDICP cap self new_pose ref_points img_points
            solved.valid_points with
        | .error e => .error e
        | .ok (_, icp_calls) => .ok ⟨true, new_pose, calls ++ icp_calls⟩
      else .ok ⟨true, new_pose, calls⟩

/-- The member function `computeTargetFeatures`. -/
def computeTargetFeatures (cap : Capabilities) (self : RelativePoseEstimatorFromRgbFeatures) :
    Except Fatal RelativePoseEstimatorFromRgbFeatures :=
  match self.m_target_image with
  | none => .error .invalid_access
  | some target_image =>
    let extracted :=
      cap.extractFromImage self.m_target_features target_image self.m_feature_parameters
    match target_image.calibration with
    | none => .error .invalid_access
    | some calibration =>
      let rgb_pose := self.m_target_pose
      let rgb_pose :=
        cap.toRightCamera rgb_pose calibration.rgb_intrinsics calibration.R calibration.T
      .ok { self with m_target_features := cap.compute3dLocation extracted rgb_pose }

/-- What the zero-argument `estimateNewPose()` leaves behind: the returned
boolean, the member variables after the call, and the calls made. -/
structure Outcome where
  ret : Bool
  state : RelativePoseEstimatorFromRgbFeatures
  calls : List Call
  deriving DecidableEq

/-- Lines 139 to 146 of the zero-argument `estimateNewPose()`: the target and
source feature sets are computed when they are empty. -/
def prepareFeatures (cap : Capabilities) (self : RelativePoseEstimatorFromRgbFeatures)
    (image : RGBDImage) : Except Fatal RelativePoseEstimatorFromRgbFeatures :=
  match (if self.m_target_features.locations.length < 1
          then computeTargetFeatures cap self else .ok self) with
  | .error e => .error e
  | .ok self =>
    if self.m_source_features.locations.length < 1 then
      .ok { self with
            m_source_features :=
              cap.extractFromImage self.m_source_features image self.m_feature_parameters }
    else .ok self

/-- The zero-argument `estimateNewPose()`. -/
def estimateNewPose (cap : Capabilities) (self : RelativePoseEstimatorFromRgbFeatures) :
    Except Fatal Outcome :=
  match self.m_source_image with
  | none => .error .assert_failure
  | some image =>
    match self.m_target_image with
    | none => .error .assert_failure
    | some _ =>
      match image.mappedDepth with
      | none => .error .ensure_failure
      | some _ =>
        match prepareFeatures cap self image with
        | .error e => .error e
        | .ok self =>
          let self := { self with m_num_matches := 0 }
          let image_features := self.m_source_features
          let matches_ := cap.matchWith self.m_target_features image_features
          let self := { self with m_num_matches := matches_.length }
          if matches_.length < self.m_min_matches then .ok ⟨false, self, []⟩
          else
            let self := { self with m_estimated_pose := self.m_target_pose }
            match image.calibration with
            | none => .error .invalid_access
            | some calibration =>
              let self :=
                { self with
                  m_estimated_pose :=
                    cap.toRightCamera self.m_estimated_pose calibration.rgb_intrinsics
                      calibration.R calibration.T }
              match estimateNewPoseWithMatches cap self self.m_estimated_pose image
                  image_features matches_ with
              | .error e => .error e
              | .ok solved =>
                let self := { self with m_estimated_pose := solved.new_pose }
                if !solved.ret then .ok ⟨false, self, solved.calls⟩
                else
                  .ok ⟨true,
                    { self with
                      m_estimated_pose :=
                        cap.toLeftCamera self.m_estimated_pose calibration.depth_intrinsics
                          calibration.R calibration.T },
                    solved.calls⟩

/-- The member function `resetTarget`. -/
def resetTarget (self : RelativePoseEstimatorFromRgbFeatures) :
    RelativePoseEstimatorFromRgbFeatures :=
  { self with
    m_target_features := FeatureSet.new,
    m_target_image := none,
    m_estimated_pose := Pose3D.new }

/-- The member function `setTargetPose`. -/
def setTargetPose (self : RelativePoseEstimatorFromRgbFeatures) (pose : Pose3D) :
    RelativePoseEstimatorFromRgbFeatures :=
  { self with m_target_pose := pose, m_target_features := FeatureSet.new }

/-- The one-argument `setTargetImage(image)`. -/
def setTargetImage (self : RelativePoseEstimatorFromRgbFeatures) (image : RGBDImage) :
    Except Fatal RelativePoseEstimatorFromRgbFeatures :=
  match image.calibration with
  | none => .error .ensure_failure
  | some calibration =>
    let self := { self with m_target_image := some image }
    let self :=
      if !self.m_target_pose.isValid then { self with m_target_pose := calibration.depth_pose }
      else self
    .ok { self with m_target_features := FeatureSet.new }

/-- Modelled from the spec: `super::setSourceImage` is defined in the base class,
outside the given sources; it stores the source frame. -/
def superSetSourceImage (self : RelativePoseEstimatorFromRgbFeatures) (image : RGBDImage) :
    RelativePoseEstimatorFromRgbFeatures :=
  { self with m_source_image := some image }

/-- The one-argument `setSourceImage(image)`. -/
def setSourceImage (self : RelativePoseEstimatorFromRgbFeatures) (image : RGBDImage) :
    Except Fatal RelativePoseEstimatorFromRgbFeatures :=
  match image.calibration with
  | none => .error .ensure_failure
  | some _ =>
    let self := superSetSourceImage self image
    .ok { self with m_source_features := FeatureSet.new }

/-- The two-argument `setSourceImage(image, features)`. -/
def setSourceImageWithFeatures (self : RelativePoseEstimatorFromRgbFeatures)
    (image : RGBDImage) (features : FeatureSet) :
    Except Fatal RelativePoseEstimatorFromRgbFeatures :=
  match image.calibration with
  | none => .error .ensure_failure
  | some _ =>
    let self := superSetSourceImage self image
    .ok { self with m_source_features := features }

/-- The two-argument `setTargetImage(image, features)`. -/
def setTargetImageWithFeatures (self : RelativePoseEstimatorFromRgbFeatures)
    (image : RGBDImage) (features : FeatureSet) :
    Except Fatal RelativePoseEstimatorFromRgbFeatures :=
  match setTargetImage self image with
  | .error e => .error e
  | .ok self => .ok { self with m_target_features := features }

/-- Modelled from the spec: the constructor is declared outside the given
sources. A new estimator is in state `NoTarget`: no frames, empty feature
sets, default (invalid) poses; the configuration values are its arguments. -/
def new (min_matches : ℕ) (postprocess_with_rgbd_icp : Bool)
    (feature_parameters : FeatureSetParams) : RelativePoseEstimatorFromRgbFeatures :=
  { m_target_image := none
    m_source_image := none
    m_target_features := FeatureSet.new
    m_source_features := FeatureSet.new
    m_target_pose := Pose3D.new
    m_estimated_pose := Pose3D.new
    m_num_matches := 0
    m_min_matches := min_matches
    m_postprocess_with_rgbd_icp := postprocess_with_rgbd_icp
    m_feature_parameters := feature_parameters }

/-- A call of one of the mutators of the estimator. -/
inductive Op where
  | resetTarget
  | setTargetPose (pose : Pose3D)
  | setTargetImage (image : RGBDImage)
  | setTargetImageWithFeatures (image : RGBDImage) (features : FeatureSet)
  | setSourceImage (image : RGBDImage)
  | setSourceImageWithFeatures (image : RGBDImage) (features : FeatureSet)
  | estimateNewPose
  deriving DecidableEq

/-- The call is `setTargetPose`. -/
def Op.isSetTargetPose : Op → Bool
  | .setTargetPose _ => true
  | _ => false

/-- Effect of one call on the member variables. -/
def step (cap : Capabilities) (self : RelativePoseEstimatorFromRgbFeatures) :
    Op → Except Fatal RelativePoseEstimatorFromRgbFeatures
  | .resetTarget => .ok (resetTarget self)
  | .setTargetPose pose => .ok (setTargetPose self pose)
  | .setTargetImage image => setTargetImage self image
  | .setTargetImageWithFeatures image features => setTargetImageWithFeatures self image features
  | .setSourceImage image => setSourceImage self image
  | .setSourceImageWithFeatures image features => setSourceImageWithFeatures self image features
  | .estimateNewPose =>
    match estimateNewPose cap self with
    | .error e => .error e
    | .ok out => .ok out.state

/-- Effect of a sequence of calls, the first call first. -/
def run (cap : Capabilities) (self : RelativePoseEstimatorFromRgbFeatures) :
    List Op → Except Fatal RelativePoseEstimatorFromRgbFeatures
  | [] => .ok self
  | op :: ops =>
    match step cap self op with
    | .error e => .error e
    | .ok self => run cap self ops

end RelativePoseEstimatorFromRgbFeatures

/-! ## Concrete inputs -/

namespace Example

/-- A pose marked valid with translation `(t, 0, 0)`. -/
def pose (t : ℚ) : Pose3D := ⟨true, ⟨0, 0, 0⟩, ⟨t, 0, 0⟩⟩

/-- A feature at pixel `(i, 0)` with depth 1 and 3D location `(i, 0, 1)`. -/
def feature (i : ℕ) : FeaturePoint := ⟨⟨i, 0⟩, 1, ⟨i, 0, 1⟩, []⟩

/-- The feature set with features `0 .. n-1`. -/
def features (n : ℕ) : FeatureSet := ⟨(List.range n).map feature⟩

/-- The matches pairing feature `i` with feature `i`, for `i < n`. -/
def matchList (n : ℕ) : List DMatch := (List.range n).map fun (i : ℕ) => ⟨(i : ℤ), (i : ℤ)⟩

/-- The points `(i, 0, 1)` for `i < n`: the 3D locations of `features n`, and
also their `(pixel x, pixel y, depth)` observations. -/
def points (n : ℕ) : List Point3f := (List.range n).map fun (i : ℕ) => ⟨i, 0, 1⟩

/-- Calibration with the given depth pose. -/
def calibration (depth_pose : Pose3D) : RGBDCalibration := ⟨[], [], [], [], depth_pose⟩

/-- A calibrated frame with mapped depth. -/
def frame (depth_pose : Pose3D) : RGBDImage := ⟨[], [], some [], some (calibration depth_pose)⟩

/-- Capabilities with a solver that returns the given residual, pose and mask, a
refiner that returns the given verdict and pose, an extractor that finds
`n` features with depth, a matcher that pairs feature `i` with feature `i`
for `i < k`, and conversions that add 1 to (`toRightCamera`) or subtract 1 from
(`toLeftCamera`) the first translation coordinate. -/
def capabilities (residual : ℚ) (solver_pose : Pose3D) (mask : List Bool) (icp_ok : Bool)
    (icp_pose : Pose3D) (n k : ℕ) : Capabilities where
  rms_optimize_ransac := fun _ _ _ _ => ⟨residual, solver_pose, mask⟩
  extractFromImage := fun _ _ _ => features n
  compute3dLocation := fun fs _ => fs
  matchWith := fun _ _ => matchList k
  toRightCamera := fun p _ _ _ =>
    { p with translation := ⟨p.translation.x + 1, p.translation.y, p.translation.z⟩ }
  toLeftCamera := fun p _ _ _ =>
    { p with translation := ⟨p.translation.x - 1, p.translation.y, p.translation.z⟩ }
  bilateralFilter := fun image => image
  computeNormals := fun image => image
  rgbdImageToPointCloud := fun _ => []
  subsample := fun cloud n => cloud.take n
  rgbd_icp := fun _ => (icp_ok, icp_pose)

/-- An estimator with the given target features and frames set. -/
def estimator (target_features : FeatureSet) (postprocess : Bool) (min_matches : ℕ) :
    RelativePoseEstimatorFromRgbFeatures :=
  { m_target_image := some (frame (pose 0))
    m_source_image := some (frame (pose 0))
    m_target_features := target_features
    m_source_features := FeatureSet.new
    m_target_pose := pose 0
    m_estimated_pose := Pose3D.new
    m_num_matches := 0
    m_min_matches := min_matches
    m_postprocess_with_rgbd_icp := postprocess
    m_feature_parameters := 0 }

/-- Capabilities whose extractor finds twelve features, whose matcher pairs all
twelve, whose solver returns residual 0 and `pose 5`, and whose refiner
reports success with `pose 7`. -/
def working : Capabilities :=
  capabilities 0 (pose 5) (List.replicate 12 true) true (pose 7) 12 12

/-- Capabilities like `working`, with a matcher that returns two matches only. -/
def sparse : Capabilities :=
  capabilities 0 (pose 5) (List.replicate 12 true) true (pose 7) 12 2

/-- An estimator with both frames set, no features yet, refinement disabled and
a minimum of three matches. -/
def start : RelativePoseEstimatorFromRgbFeatures := estimator FeatureSet.new false 3

/-- The member variables of `start` once both feature sets are computed. -/
def prepared : RelativePoseEstimatorFromRgbFeatures :=
  { estimator (features 12) false 3 with m_source_features := features 12 }

/-- The outcome of `estimateNewPose()` on `start` with `working`. -/
def firstOutcome : RelativePoseEstimatorFromRgbFeatures.Outcome :=
  ⟨true,
    { prepared with
      m_num_matches := 12,
      m_estimated_pose := working.toLeftCamera (pose 5) [] [] [] },
    [Call.rms_optimize_ransac (working.toRightCamera (pose 0) [] [] []) (points 12) (points 12)
      false]⟩

end Example

open RelativePoseEstimatorFromRgbFeatures

/-! ## Auxiliary facts -/

theorem Example.features_at (n i : ℕ) (h : i < n) :
    (Example.features n).at (i : ℤ) = some (Example.feature i) := by
  simp [FeatureSet.at, Example.features, List.getElem?_map, List.getElem?_range h]

theorem Example.matchList_depth (n k : ℕ) (h : k ≤ n) :
    ∀ m ∈ Example.matchList k, ∃ ref_loc,
      (Example.features n).at m.trainIdx = some ref_loc ∧ 0 < ref_loc.depth := by
  intro m hm
  simp only [Example.matchList, List.mem_map, List.mem_range] at hm
  obtain ⟨i, hi, rfl⟩ := hm
  exact ⟨_, Example.features_at n i (by omega), by norm_num [Example.feature]⟩

theorem Example.matchList_source (n k : ℕ) (h : k ≤ n) :
    ∀ m ∈ Example.matchList k, ∃ img_loc,
      (Example.features n).at m.queryIdx = some img_loc := by
  intro m hm
  simp only [Example.matchList, List.mem_map, List.mem_range] at hm
  obtain ⟨i, hi, rfl⟩ := hm
  exact ⟨_, Example.features_at n i (by omega)⟩

theorem collectPoints_length (target_features image_features : FeatureSet) :
    ∀ (ms : List DMatch) (a b r i : List Point3f),
      collectPoints target_features image_features ms a b = .ok (r, i) →
        r.length = a.length + ms.length ∧ i.length = b.length + ms.length := by
  intro ms
  induction ms with
  | nil =>
    intro a b r i h
    simp only [collectPoints, Except.ok.injEq, Prod.mk.injEq] at h
    obtain ⟨rfl, rfl⟩ := h
    simp
  | cons m rest ih =>
    intro a b r i h
    unfold collectPoints at h
    split at h
    · split at h
      · obtain ⟨h1, h2⟩ := ih _ _ _ _ h
        simp only [List.length_append, List.length_singleton] at h1 h2
        simp only [List.length_cons]
        constructor <;> omega
      · cases h
    · cases h

theorem collectPoints_ok (target_features image_features : FeatureSet) :
    ∀ (ms : List DMatch) (a b : List Point3f),
      (∀ m ∈ ms, ∃ ref_loc, target_features.at m.trainIdx = some ref_loc ∧ 0 < ref_loc.depth) →
      (∀ m ∈ ms, ∃ img_loc, image_features.at m.queryIdx = some img_loc) →
        ∃ r i, collectPoints target_features image_features ms a b = .ok (r, i) := by
  intro ms
  induction ms with
  | nil =>
    intro a b _ _
    exact ⟨a, b, rfl⟩
  | cons m rest ih =>
    intro a b hd hs
    obtain ⟨ref_loc, href, hpos⟩ := hd m (List.mem_cons_self _ _)
    obtain ⟨img_loc, himg⟩ := hs m (List.mem_cons_self _ _)
    have hd2 : ∀ m ∈ rest, ∃ ref_loc,
        target_features.at m.trainIdx = some ref_loc ∧ 0 < ref_loc.depth :=
      fun x hx => hd x (List.mem_cons_of_mem _ hx)
    have hs2 : ∀ m ∈ rest, ∃ img_loc, image_features.at m.queryIdx = some img_loc :=
      fun x hx => hs x (List.mem_cons_of_mem _ hx)
    unfold collectPoints
    simp only [href, himg, gt_iff_lt, hpos, if_true]
    exact ih _ _ hd2 hs2

theorem cleanPoints_ok (ref_points img_points : List Point3f) :
    ∀ (mask : List Bool) (i : ℕ) (a b : List Point3f),
      i + mask.length ≤ ref_points.length → i + mask.length ≤ img_points.length →
        ∃ c, cleanPoints ref_points img_points mask i a b = .ok c := by
  intro mask
  induction mask with
  | nil =>
    intro i a b _ _
    exact ⟨(a, b), rfl⟩
  | cons v rest ih =>
    intro i a b h1 h2
    simp only [List.length_cons] at h1 h2
    unfold cleanPoints
    cases v with
    | false =>
      simp only [Bool.not_false, if_true]
      exact ih _ _ _ (by omega) (by omega)
    | true =>
      have hr : i < ref_points.length := by omega
      have hp : i < img_points.length := by omega
      simp only [Bool.not_true, Bool.false_eq_true, if_false, List.getElem?_eq_getElem hr,
        List.getElem?_eq_getElem hp]
      exact ih _ _ _ (by omega) (by omega)

theorem optimizeWithRGBDICP_ok (cap : Capabilities)
    (self : RelativePoseEstimatorFromRgbFeatures) (new_pose : Pose3D)
    (ref_points img_points : List Point3f) (valid_points : List Bool)
    (source_image target_image : RGBDImage)
    (hsrc : self.m_source_image = some source_image)
    (htgt : self.m_target_image = some target_image)
    (href : valid_points.length ≤ ref_points.length)
    (himg : valid_points.length ≤ img_points.length) :
    optimizeWithRGBDICP cap self new_pose ref_points img_points valid_points =
      .ok (if (cap.rgbd_icp (configureRefiner cap self source_image target_image new_pose
                ref_points img_points)).1
           then (cap.rgbd_icp (configureRefiner cap self source_image target_image new_pose
                ref_points img_points)).2
           else new_pose,
           [Call.rgbd_icp (configureRefiner cap self source_image target_image new_pose
                ref_points img_points)]) := by
  obtain ⟨c, hc⟩ := cleanPoints_ok ref_points img_points valid_points 0 [] []
    (by omega) (by omega)
  unfold optimizeWithRGBDICP
  rw [hc]
  simp only [hsrc, htgt]
  cases h : (cap.rgbd_icp (configureRefiner cap self source_image target_image new_pose
    ref_points img_points)).1 <;> simp

theorem configureRefiner_colorFeatures (cap : Capabilities)
    (self : RelativePoseEstimatorFromRgbFeatures) (source_image target_image : RGBDImage)
    (new_pose : Pose3D) (ref_points img_points : List Point3f) :
    (configureRefiner cap self source_image target_image new_pose ref_points
        img_points).color_ref_points = ref_points ∧
      (configureRefiner cap self source_image target_image new_pose ref_points
        img_points).color_img_points = img_points :=
  ⟨rfl, rfl⟩

theorem FeatureSet.eq_new_of_length (fs : FeatureSet) (h : fs.locations.length < 1) :
    fs = FeatureSet.new := by
  obtain ⟨l⟩ := fs
  cases l with
  | nil => rfl
  | cons a t => simp at h

theorem computeTargetFeatures_ok (cap : Capabilities)
    (self s : RelativePoseEstimatorFromRgbFeatures)
    (h : computeTargetFeatures cap self = .ok s) :
    ∃ target_image calibration,
      self.m_target_image = some target_image ∧ target_image.calibration = some calibration ∧
      s = { self with
            m_target_features :=
              cap.compute3dLocation
                (cap.extractFromImage self.m_target_features target_image
                  self.m_feature_parameters)
                (cap.toRightCamera self.m_target_pose calibration.rgb_intrinsics calibration.R
                  calibration.T) } := by
  unfold computeTargetFeatures at h
  split at h
  · cases h
  · rename_i target_image htgt
    split at h
    · cases h
    · rename_i calibration hcal
      simp only [Except.ok.injEq] at h
      exact ⟨target_image, calibration, htgt, hcal, h.symm⟩

theorem targetStep_stable (cap : Capabilities)
    (self s : RelativePoseEstimatorFromRgbFeatures)
    (h : (if self.m_target_features.locations.length < 1
          then computeTargetFeatures cap self else .ok self) = .ok s)
    (k : ℕ) (pose : Pose3D) (sf : FeatureSet) :
    (if (s.m_target_features.locations.length < 1) then
        computeTargetFeatures cap
          { s with m_num_matches := k, m_estimated_pose := pose, m_source_features := sf }
      else .ok { s with m_num_matches := k, m_estimated_pose := pose, m_source_features := sf }) =
      .ok { s with m_num_matches := k, m_estimated_pose := pose, m_source_features := sf } := by
  by_cases ht : self.m_target_features.locations.length < 1
  · rw [if_pos ht] at h
    obtain ⟨target_image, calibration, htgt, hcal, rfl⟩ := computeTargetFeatures_ok cap self s h
    have htf := FeatureSet.eq_new_of_length _ ht
    by_cases hF : (cap.compute3dLocation
        (cap.extractFromImage self.m_target_features target_image self.m_feature_parameters)
        (cap.toRightCamera self.m_target_pose calibration.rgb_intrinsics calibration.R
          calibration.T)).locations.length < 1
    · have hnew := FeatureSet.eq_new_of_length _ hF
      rw [htf] at hnew
      simp only [htf, hnew, computeTargetFeatures, htgt, hcal]
      simp [FeatureSet.new]
    · simp only [hF, if_false]
  · rw [if_neg ht] at h
    simp only [Except.ok.injEq] at h
    subst h
    simp only [ht, if_false]

theorem prepareFeatures_ok (cap : Capabilities)
    (self p : RelativePoseEstimatorFromRgbFeatures) (image : RGBDImage)
    (h : prepareFeatures cap self image = .ok p) :
    ∃ s, (if self.m_target_features.locations.length < 1
            then computeTargetFeatures cap self else .ok self) = .ok s ∧
      s = { self with m_target_features := s.m_target_features } ∧
      p = { s with
            m_source_features :=
              if s.m_source_features.locations.length < 1 then
                cap.extractFromImage s.m_source_features image s.m_feature_parameters
              else s.m_source_features } := by
  unfold prepareFeatures at h
  cases hc : (if self.m_target_features.locations.length < 1
      then computeTargetFeatures cap self else .ok self) with
  | error e => rw [hc] at h; cases h
  | ok s =>
    rw [hc] at h
    refine ⟨s, rfl, ?_, ?_⟩
    · by_cases ht : self.m_target_features.locations.length < 1
      · rw [if_pos ht] at hc
        obtain ⟨_, _, _, _, rfl⟩ := computeTargetFeatures_ok cap self s hc
        rfl
      · rw [if_neg ht] at hc
        simp only [Except.ok.injEq] at hc
        subst hc
        rfl
    · simp only at h
      by_cases hs : s.m_source_features.locations.length < 1
      · rw [if_pos hs] at h
        simp only [Except.ok.injEq] at h
        rw [if_pos hs, ← h]
      · rw [if_neg hs] at h
        simp only [Except.ok.injEq] at h
        rw [if_neg hs, ← h]

theorem prepareFeatures_fields (cap : Capabilities)
    (self p : RelativePoseEstimatorFromRgbFeatures) (image : RGBDImage)
    (h : prepareFeatures cap self image = .ok p) :
    p = { self with
          m_target_features := p.m_target_features,
          m_source_features := p.m_source_features } := by
  obtain ⟨s, _, hs, hp⟩ := prepareFeatures_ok cap self p image h
  rw [hp, hs]

theorem prepareFeatures_stable (cap : Capabilities)
    (self p : RelativePoseEstimatorFromRgbFeatures) (image : RGBDImage)
    (h : prepareFeatures cap self image = .ok p) (k : ℕ) (pose : Pose3D) :
    prepareFeatures cap { p with m_num_matches := k, m_estimated_pose := pose } image =
      .ok { p with m_num_matches := k, m_estimated_pose := pose } := by
  obtain ⟨s, hstep, _, hp⟩ := prepareFeatures_ok cap self p image h
  have hT := targetStep_stable cap self s hstep k pose p.m_source_features
  have hp1 : { p with m_num_matches := k, m_estimated_pose := pose } =
      { s with m_num_matches := k, m_estimated_pose := pose,
               m_source_features := p.m_source_features } := by
    rw [hp]
  have hp2 : p.m_target_features = s.m_target_features := by rw [hp]
  unfold prepareFeatures
  rw [hp1]
  simp only at hT ⊢
  rw [hT]
  simp only
  by_cases hs : s.m_source_features.locations.length < 1
  · have hnew := FeatureSet.eq_new_of_length _ hs
    have hsf : p.m_source_features =
        cap.extractFromImage s.m_source_features image s.m_feature_parameters := by
      rw [hp]; simp only [hs, if_true]
    by_cases hE : p.m_source_features.locations.length < 1
    · have hnew2 := FeatureSet.eq_new_of_length _ hE
      have key : cap.extractFromImage p.m_source_features image s.m_feature_parameters =
          p.m_source_features := by
        conv_lhs => rw [hnew2, ← hnew]
        exact hsf.symm
      rw [if_pos hE, key]
    · rw [if_neg hE]
  · have hsf : p.m_source_features = s.m_source_features := by
      rw [hp]; simp only [hs, if_false]
    rw [hsf, if_neg hs]

theorem estimateNewPose_of_prepared (cap : Capabilities)
    (self p : RelativePoseEstimatorFromRgbFeatures) (image target_image : RGBDImage)
    (mapped : List ℚ)
    (hs : self.m_source_image = some image) (ht : self.m_target_image = some target_image)
    (hd : image.mappedDepth = some mapped) (hp : prepareFeatures cap self image = .ok p) :
    estimateNewPose cap self =
      if (cap.matchWith p.m_target_features p.m_source_features).length < p.m_min_matches then
        .ok ⟨false,
          { p with m_num_matches := (cap.matchWith p.m_target_features p.m_source_features).length },
          []⟩
      else
        match image.calibration with
        | none => .error .invalid_access
        | some calibration =>
          match estimateNewPoseWithMatches cap
              { p with
                m_num_matches := (cap.matchWith p.m_target_features p.m_source_features).length,
                m_estimated_pose :=
                  cap.toRightCamera p.m_target_pose calibration.rgb_intrinsics calibration.R
                    calibration.T }
              (cap.toRightCamera p.m_target_pose calibration.rgb_intrinsics calibration.R
                calibration.T)
              image p.m_source_features
              (cap.matchWith p.m_target_features p.m_source_features) with
          | .error e => .error e
          | .ok solved =>
            if !solved.ret then
              .ok ⟨false,
                { p with
                  m_num_matches :=
                    (cap.matchWith p.m_target_features p.m_source_features).length,
                  m_estimated_pose := solved.new_pose },
                solved.calls⟩
            else
              .ok ⟨true,
                { p with
                  m_num_matches :=
                    (cap.matchWith p.m_target_features p.m_source_features).length,
                  m_estimated_pose :=
                    cap.toLeftCamera solved.new_pose calibration.depth_intrinsics calibration.R
                      calibration.T },
                solved.calls⟩ := by
  unfold estimateNewPose
  simp only [hs, ht, hd, hp]

theorem estimateNewPose_inv (cap : Capabilities)
    (self : RelativePoseEstimatorFromRgbFeatures) (out : Outcome)
    (h : estimateNewPose cap self = .ok out) :
    ∃ image target_image mapped p,
      self.m_source_image = some image ∧ self.m_target_image = some target_image ∧
      image.mappedDepth = some mapped ∧ prepareFeatures cap self image = .ok p := by
  unfold estimateNewPose at h
  split at h
  · cases h
  · rename_i image hs
    split at h
    · cases h
    · rename_i target_image ht
      split at h
      · cases h
      · rename_i mapped hd
        split at h
        · cases h
        · rename_i p hp
          exact ⟨image, target_image, mapped, p, hs, ht, hd, hp⟩

/-! ## The four-argument `estimateNewPose` -/

/-- C1: with fewer than 10 matches whose target and source features exist, every
matched target feature having positive depth, the four-argument
`estimateNewPose` returns false, whatever the feature sets contain; it makes
no call (so the robust solver is not invoked) and `new_pose` keeps its value
on entry. -/
theorem few_matches_return_false (cap : Capabilities)
    (self : RelativePoseEstimatorFromRgbFeatures) (new_pose : Pose3D) (image : RGBDImage)
    (image_features : FeatureSet) (matches_ : List DMatch)
    (hfew : matches_.length < 10)
    (hdepth : ∀ m ∈ matches_, ∃ ref_loc,
      self.m_target_features.at m.trainIdx = some ref_loc ∧ 0 < ref_loc.depth)
    (hsource : ∀ m ∈ matches_, ∃ img_loc, image_features.at m.queryIdx = some img_loc) :
    estimateNewPoseWithMatches cap self new_pose image image_features matches_ =
      .ok ⟨false, new_pose, []⟩ := by
  obtain ⟨r, i, hpts⟩ :=
    collectPoints_ok self.m_target_features image_features matches_ [] [] hdepth hsource
  have hlen := (collectPoints_length _ _ _ _ _ _ _ hpts).1
  simp only [List.length_nil, Nat.zero_add] at hlen
  unfold estimateNewPoseWithMatches
  rw [hpts]
  simp only [hlen, hfew, if_true]

/-- C1 at a concrete input: three matches between features that all carry depth. -/
theorem few_matches_return_false_witness :
    (Example.matchList 3).length < 10 ∧
    estimateNewPoseWithMatches
        (Example.capabilities 0 (Example.pose 5) [] true (Example.pose 7) 3 3)
        (Example.estimator (Example.features 3) true 0) (Example.pose 1)
        (Example.frame (Example.pose 0)) (Example.features 3) (Example.matchList 3) =
      .ok ⟨false, Example.pose 1, []⟩ :=
  ⟨by decide,
   few_matches_return_false _ _ _ _ _ _ (by decide)
    (Example.matchList_depth 3 3 (le_refl 3)) (Example.matchList_source 3 3 (le_refl 3))⟩

theorem estimateNewPoseWithMatches_of_points (cap : Capabilities)
    (self : RelativePoseEstimatorFromRgbFeatures) (new_pose : Pose3D) (image : RGBDImage)
    (image_features : FeatureSet) (matches_ : List DMatch) (ref_points img_points : List Point3f)
    (hpts : collectPoints self.m_target_features image_features matches_ [] [] =
      .ok (ref_points, img_points))
    (hn : 10 ≤ matches_.length) :
    estimateNewPoseWithMatches cap self new_pose image image_features matches_ =
      if (cap.rms_optimize_ransac new_pose ref_points img_points false).error /
          (matches_.length : ℚ) > err_threshold then
        .ok ⟨false, (cap.rms_optimize_ransac new_pose ref_points img_points false).pose,
          [Call.rms_optimize_ransac new_pose ref_points img_points false]⟩
      else if self.m_postprocess_with_rgbd_icp then
        match optimizeWithRGBDICP cap self
            (cap.rms_optimize_ransac new_pose ref_points img_points false).pose
            ref_points img_points
            (cap.rms_optimize_ransac new_pose ref_points img_points false).valid_points with
        | .error e => .error e
        | .ok (_, icp_calls) =>
          .ok ⟨true, (cap.rms_optimize_ransac new_pose ref_points img_points false).pose,
            [Call.rms_optimize_ransac new_pose ref_points img_points false] ++ icp_calls⟩
      else
        .ok ⟨true, (cap.rms_optimize_ransac new_pose ref_points img_points false).pose,
          [Call.rms_optimize_ransac new_pose ref_points img_points false]⟩ := by
  have hlen := (collectPoints_length _ _ _ _ _ _ _ hpts).1
  simp only [List.length_nil, Nat.zero_add] at hlen
  have h10 : ¬ matches_.length < 10 := by omega
  unfold estimateNewPoseWithMatches
  rw [hpts]
  simp only [hlen, h10, if_false]

theorem estimateNewPoseWithMatches_refined (cap : Capabilities)
    (self : RelativePoseEstimatorFromRgbFeatures) (new_pose : Pose3D) (image : RGBDImage)
    (image_features : FeatureSet) (matches_ : List DMatch) (ref_points img_points : List Point3f)
    (source_image target_image : RGBDImage)
    (hpts : collectPoints self.m_target_features image_features matches_ [] [] =
      .ok (ref_points, img_points))
    (hn : 10 ≤ matches_.length)
    (haccept : (cap.rms_optimize_ransac new_pose ref_points img_points false).error /
      (matches_.length : ℚ) ≤ err_threshold)
    (hpost : self.m_postprocess_with_rgbd_icp = true)
    (hsrc : self.m_source_image = some source_image)
    (htgt : self.m_target_image = some target_image)
    (hmask : (cap.rms_optimize_ransac new_pose ref_points img_points false).valid_points.length ≤
      matches_.length) :
    estimateNewPoseWithMatches cap self new_pose image image_features matches_ =
      .ok ⟨true, (cap.rms_optimize_ransac new_pose ref_points img_points false).pose,
        [Call.rms_optimize_ransac new_pose ref_points img_points false,
         Call.rgbd_icp (configureRefiner cap self source_image target_image
          (cap.rms_optimize_ransac new_pose ref_points img_points false).pose
          ref_points img_points)]⟩ := by
  obtain ⟨hl1, hl2⟩ := collectPoints_length _ _ _ _ _ _ _ hpts
  simp only [List.length_nil, Nat.zero_add] at hl1 hl2
  rw [estimateNewPoseWithMatches_of_points _ _ _ _ _ _ _ _ hpts hn, if_neg (not_lt.mpr haccept),
    if_pos hpost,
    optimizeWithRGBDICP_ok cap self _ ref_points img_points _ source_image target_image hsrc htgt
      (by omega) (by omega)]
  simp

theorem Example.residual_zero_accepted (n : ℕ) : (0 : ℚ) / (n : ℚ) ≤ err_threshold := by
  rw [zero_div]
  norm_num [err_threshold]

theorem Example.collectPoints_16 :
    collectPoints (Example.features 16) (Example.features 16) (Example.matchList 16) [] [] =
      .ok (Example.points 16, Example.points 16) := by
  rfl

theorem Example.collectPoints_12 :
    collectPoints (Example.features 12) (Example.features 12) (Example.matchList 12) [] [] =
      .ok (Example.points 12, Example.points 12) := by
  rfl

/-- The constant `err_threshold` is a binary32 value (a 24-bit significand
scaled by a power of two), it lies within half a unit in the last place
(`2^(-32)`) of 0.005, and it is smaller than 0.005. -/
theorem err_threshold_binary32 :
    err_threshold = 10737418 / 2 ^ 31 ∧ 2 ^ 23 ≤ 10737418 ∧ 10737418 < 2 ^ 24 ∧
      |err_threshold - 5 / 1000| < 1 / 2 ^ 32 ∧ err_threshold < 5 / 1000 := by
  refine ⟨by norm_num [err_threshold], by norm_num, by norm_num, ?_, by norm_num [err_threshold]⟩
  rw [abs_lt]
  constructor <;> norm_num [err_threshold]

/-- C2 as stated fails. Sixteen pairs, and a solver that returns the residual
`85899345 / 2^30` (about 0.0799999991, a double; dividing it by 16 is exact
in double precision). The normalized residual `85899345 / 2^34`, about
0.00499999995, does not exceed 0.005, yet the call returns false, because
it exceeds the single-precision constant `0.005f`. -/
theorem residual_below_decimal_threshold_rejected :
    10 ≤ (Example.matchList 16).length ∧
    ¬ ((85899345 / 1073741824 : ℚ) / ((Example.matchList 16).length : ℚ) > 5 / 1000) ∧
    estimateNewPoseWithMatches
        (Example.capabilities (85899345 / 1073741824) (Example.pose 5)
          (List.replicate 16 true) true (Example.pose 7) 16 16)
        (Example.estimator (Example.features 16) false 3) (Example.pose 1)
        (Example.frame (Example.pose 0)) (Example.features 16) (Example.matchList 16) =
      .ok ⟨false, Example.pose 5,
        [Call.rms_optimize_ransac (Example.pose 1) (Example.points 16) (Example.points 16)
          false]⟩ := by
  refine ⟨by decide, ?_, ?_⟩
  · have h : (Example.matchList 16).length = 16 := by decide
    rw [h]
    norm_num
  · rw [estimateNewPoseWithMatches_of_points _ _ _ _ _ _ _ _ Example.collectPoints_16
      (by decide)]
    have h : (Example.matchList 16).length = 16 := by decide
    rw [h]
    norm_num [Example.capabilities, err_threshold]

/-- C2, amended: for a match list of at least 10 pairs (with the refiner, when
enabled, able to run: both frames set and no more mask entries than pairs),
the four-argument `estimateNewPose` returns, leaves the solver pose in
`new_pose`, and returns false exactly when the residual divided by the
number of pairs exceeds the single-precision constant `err_threshold`
(`0.005f`), true otherwise; a normalized residual of 0 and one equal to
`err_threshold` are accepted. -/
theorem residual_threshold_decides (cap : Capabilities)
    (self : RelativePoseEstimatorFromRgbFeatures) (new_pose : Pose3D) (image : RGBDImage)
    (image_features : FeatureSet) (matches_ : List DMatch) (ref_points img_points : List Point3f)
    (hpts : collectPoints self.m_target_features image_features matches_ [] [] =
      .ok (ref_points, img_points))
    (hn : 10 ≤ matches_.length)
    (hrefine : self.m_postprocess_with_rgbd_icp = true →
      self.m_source_image ≠ none ∧ self.m_target_image ≠ none ∧
      (cap.rms_optimize_ransac new_pose ref_points img_points false).valid_points.length ≤
        matches_.length) :
    ∃ out, estimateNewPoseWithMatches cap self new_pose image image_features matches_ = .ok out ∧
      out.new_pose = (cap.rms_optimize_ransac new_pose ref_points img_points false).pose ∧
      (out.ret = false ↔
        (cap.rms_optimize_ransac new_pose ref_points img_points false).error /
          (matches_.length : ℚ) > err_threshold) ∧
      (out.ret = true ↔
        (cap.rms_optimize_ransac new_pose ref_points img_points false).error /
          (matches_.length : ℚ) ≤ err_threshold) ∧
      ((cap.rms_optimize_ransac new_pose ref_points img_points false).error /
          (matches_.length : ℚ) = 0 → out.ret = true) ∧
      ((cap.rms_optimize_ransac new_pose ref_points img_points false).error /
          (matches_.length : ℚ) = err_threshold → out.ret = true) := by
  have hthr : (0 : ℚ) ≤ err_threshold := by norm_num [err_threshold]
  rw [estimateNewPoseWithMatches_of_points _ _ _ _ _ _ _ _ hpts hn]
  by_cases hgt : (cap.rms_optimize_ransac new_pose ref_points img_points false).error /
      (matches_.length : ℚ) > err_threshold
  · rw [if_pos hgt]
    refine ⟨_, rfl, rfl, ?_, ?_, ?_, ?_⟩
    · simp [hgt]
    · simp [not_le.mpr hgt]
    · intro h0
      rw [h0] at hgt
      exact absurd hgt (not_lt.mpr hthr)
    · intro h0
      rw [h0] at hgt
      exact absurd hgt (lt_irrefl _)
  · rw [if_neg hgt]
    have hle := not_lt.mp hgt
    cases hpost : self.m_postprocess_with_rgbd_icp with
    | false =>
      simp only [Bool.false_eq_true, if_false]
      refine ⟨_, rfl, rfl, ?_, ?_, ?_, ?_⟩ <;> simp [hgt, hle]
    | true =>
      obtain ⟨hs, ht, hmask⟩ := hrefine hpost
      obtain ⟨src, hsrc⟩ := Option.ne_none_iff_exists'.mp hs
      obtain ⟨tgt, htgt⟩ := Option.ne_none_iff_exists'.mp ht
      obtain ⟨hl1, hl2⟩ := collectPoints_length _ _ _ _ _ _ _ hpts
      simp only [List.length_nil, Nat.zero_add] at hl1 hl2
      rw [optimizeWithRGBDICP_ok cap self _ ref_points img_points _ src tgt hsrc htgt
        (by omega) (by omega)]
      simp only [if_true]
      refine ⟨_, rfl, rfl, ?_, ?_, ?_, ?_⟩ <;> simp [hgt, hle]

/-- C2, amended, at a concrete input: twelve pairs, residual 0, refinement
enabled with both frames set and a mask of twelve entries. -/
theorem residual_threshold_decides_witness :
    ∃ out,
      estimateNewPoseWithMatches
          (Example.capabilities 0 (Example.pose 5) (List.replicate 12 true) true
            (Example.pose 7) 12 12)
          (Example.estimator (Example.features 12) true 3) (Example.pose 1)
          (Example.frame (Example.pose 0)) (Example.features 12) (Example.matchList 12) =
        .ok out ∧
      out.new_pose = Example.pose 5 ∧
      (out.ret = false ↔ (0 : ℚ) / ((Example.matchList 12).length : ℚ) > err_threshold) ∧
      (out.ret = true ↔ (0 : ℚ) / ((Example.matchList 12).length : ℚ) ≤ err_threshold) ∧
      ((0 : ℚ) / ((Example.matchList 12).length : ℚ) = 0 → out.ret = true) ∧
      ((0 : ℚ) / ((Example.matchList 12).length : ℚ) = err_threshold → out.ret = true) :=
  residual_threshold_decides
    (Example.capabilities 0 (Example.pose 5) (List.replicate 12 true) true (Example.pose 7) 12 12)
    (Example.estimator (Example.features 12) true 3) (Example.pose 1)
    (Example.frame (Example.pose 0)) (Example.features 12) (Example.matchList 12)
    (Example.points 12) (Example.points 12) Example.collectPoints_12 (by decide)
    (fun _ => ⟨by simp [Example.estimator], by simp [Example.estimator], by decide⟩)

/-- C4 as stated fails. Sixteen pairs, refinement enabled with both frames set,
a refiner that reports failure on every input, and a solver that returns the
residual `85899345 / 2^30` (a double; dividing it by 16 is exact in double
precision). The normalized residual `85899345 / 2^34` does not exceed 0.005,
but it exceeds the single-precision constant `0.005f`: the call returns
false, and the refiner is not run. -/
theorem refiner_failure_below_decimal_threshold_rejected :
    10 ≤ (Example.matchList 16).length ∧
    (85899345 / 1073741824 : ℚ) / ((Example.matchList 16).length : ℚ) ≤ 5 / 1000 ∧
    (Example.estimator (Example.features 16) true 3).m_postprocess_with_rgbd_icp = true ∧
    (∀ e, ((Example.capabilities (85899345 / 1073741824) (Example.pose 5)
          (List.replicate 16 true) false (Example.pose 7) 16 16).rgbd_icp e).1 = false) ∧
    estimateNewPoseWithMatches
        (Example.capabilities (85899345 / 1073741824) (Example.pose 5)
          (List.replicate 16 true) false (Example.pose 7) 16 16)
        (Example.estimator (Example.features 16) true 3) (Example.pose 1)
        (Example.frame (Example.pose 0)) (Example.features 16) (Example.matchList 16) =
      .ok ⟨false, Example.pose 5,
        [Call.rms_optimize_ransac (Example.pose 1) (Example.points 16) (Example.points 16)
          false]⟩ := by
  have h : (Example.matchList 16).length = 16 := by decide
  refine ⟨by decide, ?_, rfl, fun _ => rfl, ?_⟩
  · rw [h]
    norm_num
  · rw [estimateNewPoseWithMatches_of_points _ _ _ _ _ _ _ _ Example.collectPoints_16
      (by decide), h]
    norm_num [Example.capabilities, err_threshold]

/-- C4, amended: with refinement enabled and both frames set, when the robust
solve is accepted (at least 10 pairs and a normalized residual that does not
exceed the single-precision constant `err_threshold`, `0.005f`; the mask has
no more entries than there are pairs) and the refiner reports failure, the
four-argument `estimateNewPose` returns true and `new_pose` is the pose
written by the robust solver. -/
theorem refiner_failure_keeps_solver_pose (cap : Capabilities)
    (self : RelativePoseEstimatorFromRgbFeatures) (new_pose : Pose3D) (image : RGBDImage)
    (image_features : FeatureSet) (matches_ : List DMatch) (ref_points img_points : List Point3f)
    (source_image target_image : RGBDImage)
    (hpts : collectPoints self.m_target_features image_features matches_ [] [] =
      .ok (ref_points, img_points))
    (hn : 10 ≤ matches_.length)
    (haccept : (cap.rms_optimize_ransac new_pose ref_points img_points false).error /
      (matches_.length : ℚ) ≤ err_threshold)
    (hpost : self.m_postprocess_with_rgbd_icp = true)
    (hsrc : self.m_source_image = some source_image)
    (htgt : self.m_target_image = some target_image)
    (hmask : (cap.rms_optimize_ransac new_pose ref_points img_points false).valid_points.length ≤
      matches_.length)
    (hfail : (cap.rgbd_icp (configureRefiner cap self source_image target_image
      (cap.rms_optimize_ransac new_pose ref_points img_points false).pose
      ref_points img_points)).1 = false) :
    estimateNewPoseWithMatches cap self new_pose image image_features matches_ =
      .ok ⟨true, (cap.rms_optimize_ransac new_pose ref_points img_points false).pose,
        [Call.rms_optimize_ransac new_pose ref_points img_points false,
         Call.rgbd_icp (configureRefiner cap self source_image target_image
          (cap.rms_optimize_ransac new_pose ref_points img_points false).pose
          ref_points img_points)]⟩ := by
  exact estimateNewPoseWithMatches_refined cap self new_pose image image_features matches_
    ref_points img_points source_image target_image hpts hn haccept hpost hsrc htgt hmask

/-- C4, amended, at a concrete input: twelve pairs, residual 0, refinement
enabled and a refiner that reports failure. -/
theorem refiner_failure_keeps_solver_pose_witness :
    estimateNewPoseWithMatches
        (Example.capabilities 0 (Example.pose 5) (List.replicate 12 true) false
          (Example.pose 7) 12 12)
        (Example.estimator (Example.features 12) true 3) (Example.pose 1)
        (Example.frame (Example.pose 0)) (Example.features 12) (Example.matchList 12) =
      .ok ⟨true, Example.pose 5,
        [Call.rms_optimize_ransac (Example.pose 1) (Example.points 12) (Example.points 12) false,
         Call.rgbd_icp (configureRefiner
          (Example.capabilities 0 (Example.pose 5) (List.replicate 12 true) false
            (Example.pose 7) 12 12)
          (Example.estimator (Example.features 12) true 3) (Example.frame (Example.pose 0))
          (Example.frame (Example.pose 0)) (Example.pose 5) (Example.points 12)
          (Example.points 12))]⟩ :=
  refiner_failure_keeps_solver_pose
    (Example.capabilities 0 (Example.pose 5) (List.replicate 12 true) false (Example.pose 7) 12 12)
    (Example.estimator (Example.features 12) true 3) (Example.pose 1)
    (Example.frame (Example.pose 0)) (Example.features 12) (Example.matchList 12)
    (Example.points 12) (Example.points 12) (Example.frame (Example.pose 0))
    (Example.frame (Example.pose 0)) Example.collectPoints_12 (by decide)
    (by
      have h : (Example.matchList 12).length = 12 := by decide
      rw [h]
      norm_num [Example.capabilities, err_threshold])
    rfl rfl rfl (by decide) rfl

/-- C3 on the code: twelve pairs, residual 0, refinement enabled, a solver that
writes `pose 5` and a refiner that reports success with estimated source
pose `pose 7`. Inside `optimizeWithRGBDICP` the local `new_pose` ends as
`pose 7`, but the parameter is passed by value: the four-argument
`estimateNewPose` returns true and leaves the solver pose `pose 5` in
`new_pose`, not the refiner's pose. -/
theorem refiner_pose_not_returned :
    (Example.capabilities 0 (Example.pose 5) (List.replicate 12 true) true
        (Example.pose 7) 12 12).rgbd_icp
      (configureRefiner
        (Example.capabilities 0 (Example.pose 5) (List.replicate 12 true) true
          (Example.pose 7) 12 12)
        (Example.estimator (Example.features 12) true 3) (Example.frame (Example.pose 0))
        (Example.frame (Example.pose 0)) (Example.pose 5) (Example.points 12)
        (Example.points 12)) = (true, Example.pose 7) ∧
    Except.map Prod.fst
      (optimizeWithRGBDICP
        (Example.capabilities 0 (Example.pose 5) (List.replicate 12 true) true
          (Example.pose 7) 12 12)
        (Example.estimator (Example.features 12) true 3) (Example.pose 5) (Example.points 12)
        (Example.points 12) (List.replicate 12 true)) = .ok (Example.pose 7) ∧
    Except.map (fun out => (out.ret, out.new_pose))
      (estimateNewPoseWithMatches
        (Example.capabilities 0 (Example.pose 5) (List.replicate 12 true) true
          (Example.pose 7) 12 12)
        (Example.estimator (Example.features 12) true 3) (Example.pose 1)
        (Example.frame (Example.pose 0)) (Example.features 12) (Example.matchList 12)) =
      .ok (true, Example.pose 5) ∧
    Example.pose 5 ≠ Example.pose 7 := by
  refine ⟨rfl, ?_, ?_, by decide⟩
  · rw [optimizeWithRGBDICP_ok _ _ _ _ _ _ (Example.frame (Example.pose 0))
      (Example.frame (Example.pose 0)) rfl rfl (by decide) (by decide)]
    rfl
  · rw [estimateNewPoseWithMatches_refined _ _ _ _ _ _ (Example.points 12) (Example.points 12)
      (Example.frame (Example.pose 0)) (Example.frame (Example.pose 0))
      Example.collectPoints_12 (by decide) (Example.residual_zero_accepted _) rfl rfl rfl
      (by decide)]
    rfl

/-- C10 on the code: twelve pairs and a solver whose mask flags the first pair
as an outlier. The loop over the mask builds the eleven inlier pairs, but
`setColorFeatures` is called with the unfiltered vectors: the refiner
receives all twelve pairs, the outlier `(0, 0, 1)` included. -/
theorem refiner_receives_outliers :
    cleanPoints (Example.points 12) (Example.points 12) (false :: List.replicate 11 true)
        0 [] [] = .ok ((Example.points 12).tail, (Example.points 12).tail) ∧
    Except.map (fun out => out.calls.filterMap Call.colorFeatures)
      (estimateNewPoseWithMatches
        (Example.capabilities 0 (Example.pose 5) (false :: List.replicate 11 true) true
          (Example.pose 7) 12 12)
        (Example.estimator (Example.features 12) true 3) (Example.pose 1)
        (Example.frame (Example.pose 0)) (Example.features 12) (Example.matchList 12)) =
      .ok [(Example.points 12, Example.points 12)] ∧
    (Example.points 12)[0]? = some ⟨0, 0, 1⟩ ∧
    (⟨0, 0, 1⟩ : Point3f) ∉ (Example.points 12).tail := by
  refine ⟨rfl, ?_, rfl, by decide⟩
  rw [estimateNewPoseWithMatches_refined _ _ _ _ _ _ (Example.points 12) (Example.points 12)
    (Example.frame (Example.pose 0)) (Example.frame (Example.pose 0))
    Example.collectPoints_12 (by decide) (Example.residual_zero_accepted _) rfl rfl rfl
    (by decide)]
  rfl

/-! ## The zero-argument `estimateNewPose` -/

theorem Example.estimateNewPose_first :
    estimateNewPose
        (Example.capabilities 0 (Example.pose 5) (List.replicate 12 true) true
          (Example.pose 7) 12 12)
        (Example.estimator FeatureSet.new false 3) =
      .ok ⟨true,
        { Example.estimator (Example.features 12) false 3 with
          m_source_features := Example.features 12,
          m_num_matches := 12,
          m_estimated_pose :=
            (Example.capabilities 0 (Example.pose 5) (List.replicate 12 true) true
              (Example.pose 7) 12 12).toLeftCamera (Example.pose 5) [] [] [] },
        [Call.rms_optimize_ransac
          ((Example.capabilities 0 (Example.pose 5) (List.replicate 12 true) true
              (Example.pose 7) 12 12).toRightCamera (Example.pose 0) [] [] [])
          (Example.points 12) (Example.points 12) false]⟩ := by
  rw [estimateNewPose_of_prepared
    (Example.capabilities 0 (Example.pose 5) (List.replicate 12 true) true (Example.pose 7) 12 12)
    (Example.estimator FeatureSet.new false 3)
    { Example.estimator (Example.features 12) false 3 with
      m_source_features := Example.features 12 }
    (Example.frame (Example.pose 0)) (Example.frame (Example.pose 0)) [] rfl rfl rfl rfl]
  have hlt : ¬ (12 : ℕ) < 3 := by decide
  have hlen : (Example.matchList 12).length = 12 := by decide
  simp only [Example.capabilities, Example.estimator, hlen, hlt, if_false, Example.frame]
  rw [estimateNewPoseWithMatches_of_points _ _ _ _ _ _ (Example.points 12) (Example.points 12)
    Example.collectPoints_12 (by decide)]
  norm_num [err_threshold, Example.calibration]

theorem Example.estimateNewPose_start :
    estimateNewPose Example.working Example.start = .ok Example.firstOutcome :=
  Example.estimateNewPose_first

/-- C5: when a call of the zero-argument `estimateNewPose()` returns, calling it
again on the member variables it left (no setter or reset in between) returns
the same outcome: the same boolean and the same member variables, among them
the estimated pose, the match count and the target and source feature
sets. -/
theorem estimateNewPose_idempotent (cap : Capabilities)
    (self : RelativePoseEstimatorFromRgbFeatures) (out : Outcome)
    (h : estimateNewPose cap self = .ok out) :
    estimateNewPose cap out.state = .ok out := by
  obtain ⟨image, target_image, mapped, p, hs, ht, hd, hp⟩ := estimateNewPose_inv cap self out h
  have hf := prepareFeatures_fields cap self p image hp
  have hps : p.m_source_image = some image := by rw [hf]; exact hs
  have hpt : p.m_target_image = some target_image := by rw [hf]; exact ht
  have hstable := prepareFeatures_stable cap self p image hp
  rw [estimateNewPose_of_prepared cap self p image target_image mapped hs ht hd hp] at h
  by_cases hlt : (cap.matchWith p.m_target_features p.m_source_features).length < p.m_min_matches
  · rw [if_pos hlt] at h
    simp only [Except.ok.injEq] at h
    subst h
    have key := estimateNewPose_of_prepared cap
      { p with m_num_matches := (cap.matchWith p.m_target_features p.m_source_features).length }
      { p with m_num_matches := (cap.matchWith p.m_target_features p.m_source_features).length }
      image target_image mapped hps hpt hd (hstable _ p.m_estimated_pose)
    simp only [hlt, if_true] at key
    exact key
  · rw [if_neg hlt] at h
    cases hcal : image.calibration with
    | none => rw [hcal] at h; cases h
    | some calibration =>
      rw [hcal] at h
      simp only at h
      split at h
      · cases h
      · rename_i solved hsolved
        by_cases hret : solved.ret = true
        · simp only [hret, Bool.not_true, Bool.false_eq_true, if_false, Except.ok.injEq] at h
          subst h
          have key := estimateNewPose_of_prepared cap
            { p with
              m_num_matches := (cap.matchWith p.m_target_features p.m_source_features).length,
              m_estimated_pose :=
                cap.toLeftCamera solved.new_pose calibration.depth_intrinsics calibration.R
                  calibration.T }
            { p with
              m_num_matches := (cap.matchWith p.m_target_features p.m_source_features).length,
              m_estimated_pose :=
                cap.toLeftCamera solved.new_pose calibration.depth_intrinsics calibration.R
                  calibration.T }
            image target_image mapped hps hpt hd (hstable _ _)
          simp only [hlt, if_false, hcal, hsolved, hret, Bool.not_true, Bool.false_eq_true]
            at key
          exact key
        · simp only [hret, Bool.not_false, if_true, Except.ok.injEq] at h
          subst h
          have key := estimateNewPose_of_prepared cap
            { p with
              m_num_matches := (cap.matchWith p.m_target_features p.m_source_features).length,
              m_estimated_pose := solved.new_pose }
            { p with
              m_num_matches := (cap.matchWith p.m_target_features p.m_source_features).length,
              m_estimated_pose := solved.new_pose }
            image target_image mapped hps hpt hd (hstable _ _)
          simp only [hlt, if_false, hcal, hsolved, hret, Bool.not_false, if_true] at key
          exact key

/-- C5 at a concrete input: the second call on the state left by the first call
on `start`. -/
theorem estimateNewPose_idempotent_witness :
    estimateNewPose Example.working Example.firstOutcome.state = .ok Example.firstOutcome :=
  estimateNewPose_idempotent Example.working Example.start Example.firstOutcome
    Example.estimateNewPose_start

/-- C6: when the zero-argument `estimateNewPose()` returns true, the source frame
is set and calibrated, the four-argument `estimateNewPose` was called with
`new_pose` equal to `toRightCamera` (source rgb intrinsics, source `R`,
source `T`) of the target pose and returned true, and the estimated pose is
`toLeftCamera` (source depth intrinsics, source `R`, source `T`) of the
pose that call left in `new_pose`. -/
theorem estimateNewPose_true_conversions (cap : Capabilities)
    (self : RelativePoseEstimatorFromRgbFeatures) (out : Outcome)
    (h : estimateNewPose cap self = .ok out) (hret : out.ret = true) :
    ∃ image calibration p solved,
      self.m_source_image = some image ∧ image.calibration = some calibration ∧
      prepareFeatures cap self image = .ok p ∧
      estimateNewPoseWithMatches cap
          { p with
            m_num_matches := (cap.matchWith p.m_target_features p.m_source_features).length,
            m_estimated_pose :=
              cap.toRightCamera self.m_target_pose calibration.rgb_intrinsics calibration.R
                calibration.T }
          (cap.toRightCamera self.m_target_pose calibration.rgb_intrinsics calibration.R
            calibration.T)
          image p.m_source_features (cap.matchWith p.m_target_features p.m_source_features) =
        .ok solved ∧
      solved.ret = true ∧
      out.state.m_estimated_pose =
        cap.toLeftCamera solved.new_pose calibration.depth_intrinsics calibration.R
          calibration.T := by
  obtain ⟨image, target_image, mapped, p, hs, ht, hd, hp⟩ := estimateNewPose_inv cap self out h
  have hf := prepareFeatures_fields cap self p image hp
  have hpose : p.m_target_pose = self.m_target_pose := by rw [hf]
  rw [estimateNewPose_of_prepared cap self p image target_image mapped hs ht hd hp] at h
  by_cases hlt : (cap.matchWith p.m_target_features p.m_source_features).length < p.m_min_matches
  · rw [if_pos hlt] at h
    simp only [Except.ok.injEq] at h
    subst h
    cases hret
  · rw [if_neg hlt] at h
    cases hcal : image.calibration with
    | none => rw [hcal] at h; cases h
    | some calibration =>
      rw [hcal] at h
      simp only at h
      split at h
      · cases h
      · rename_i solved hsolved
        by_cases hsr : solved.ret = true
        · simp only [hsr, Bool.not_true, Bool.false_eq_true, if_false, Except.ok.injEq] at h
          subst h
          refine ⟨image, calibration, p, solved, hs, hcal, hp, ?_, hsr, rfl⟩
          rw [← hpose]
          exact hsolved
        · simp only [hsr, Bool.not_false, if_true, Except.ok.injEq] at h
          subst h
          cases hret

/-- C6 at a concrete input: the call on `start`, which returns true. -/
theorem estimateNewPose_true_conversions_witness :
    ∃ image calibration p solved,
      Example.start.m_source_image = some image ∧ image.calibration = some calibration ∧
      prepareFeatures Example.working Example.start image = .ok p ∧
      estimateNewPoseWithMatches Example.working
          { p with
            m_num_matches :=
              (Example.working.matchWith p.m_target_features p.m_source_features).length,
            m_estimated_pose :=
              Example.working.toRightCamera Example.start.m_target_pose
                calibration.rgb_intrinsics calibration.R calibration.T }
          (Example.working.toRightCamera Example.start.m_target_pose calibration.rgb_intrinsics
            calibration.R calibration.T)
          image p.m_source_features
          (Example.working.matchWith p.m_target_features p.m_source_features) =
        .ok solved ∧
      solved.ret = true ∧
      Example.firstOutcome.state.m_estimated_pose =
        Example.working.toLeftCamera solved.new_pose calibration.depth_intrinsics calibration.R
          calibration.T :=
  estimateNewPose_true_conversions Example.working Example.start Example.firstOutcome
    Example.estimateNewPose_start rfl

/-- C7: with source and target frames set, the source with mapped depth, and the
feature sets prepared, if the matcher returns `k` matches and `k` is below
the configured minimum, the zero-argument `estimateNewPose()` returns false,
records `k` in `m_num_matches`, makes no call (so the robust solver is not
invoked) and leaves the estimated pose as it was before the call. -/
theorem too_few_matches_return_false (cap : Capabilities)
    (self p : RelativePoseEstimatorFromRgbFeatures) (image target_image : RGBDImage)
    (mapped : List ℚ) (k : ℕ)
    (hs : self.m_source_image = some image) (ht : self.m_target_image = some target_image)
    (hd : image.mappedDepth = some mapped) (hp : prepareFeatures cap self image = .ok p)
    (hk : (cap.matchWith p.m_target_features p.m_source_features).length = k)
    (hlt : k < self.m_min_matches) :
    ∃ out, estimateNewPose cap self = .ok out ∧ out.ret = false ∧
      out.state.m_num_matches = k ∧ out.calls = [] ∧
      out.state.m_estimated_pose = self.m_estimated_pose := by
  have hf := prepareFeatures_fields cap self p image hp
  have hmin : p.m_min_matches = self.m_min_matches := by rw [hf]
  have hest : p.m_estimated_pose = self.m_estimated_pose := by rw [hf]
  rw [estimateNewPose_of_prepared cap self p image target_image mapped hs ht hd hp, hk, hmin,
    if_pos hlt]
  exact ⟨_, rfl, rfl, rfl, rfl, hest⟩

/-- C7 at a concrete input: two matches where three are required. -/
theorem too_few_matches_return_false_witness :
    ∃ out, estimateNewPose Example.sparse Example.start = .ok out ∧ out.ret = false ∧
      out.state.m_num_matches = 2 ∧ out.calls = [] ∧
      out.state.m_estimated_pose = Example.start.m_estimated_pose :=
  too_few_matches_return_false Example.sparse Example.start Example.prepared
    (Example.frame (Example.pose 0)) (Example.frame (Example.pose 0)) [] 2 rfl rfl rfl rfl
    (by decide) (by decide)

/-! ## The mutators -/

/-- C8 as stated fails. A new estimator whose target pose is initialised by
`setTargetImage` from a frame with the valid depth pose `pose 2`, then
`resetTarget()`: the target feature set is empty, but the target pose is
still `pose 2`, which is valid. -/
theorem target_pose_survives_reset :
    Except.map (fun s => (s.m_target_features, s.m_target_pose, s.m_target_pose.isValid))
      (run Example.working (new 3 false 0)
        [Op.setTargetImage (Example.frame (Example.pose 2)), Op.resetTarget]) =
      .ok (FeatureSet.new, Example.pose 2, true) := by
  rfl

/-- C8, amended: after `resetTarget()` the target feature set is empty, the
target frame is cleared and the estimated pose is the default pose
`Pose3D()`, which is not valid; the target pose is left as it was. -/
theorem resetTarget_clears (self : RelativePoseEstimatorFromRgbFeatures) :
    (resetTarget self).m_target_features = FeatureSet.new ∧
    (resetTarget self).m_target_features.locations = [] ∧
    (resetTarget self).m_target_image = none ∧
    (resetTarget self).m_estimated_pose = Pose3D.new ∧
    (resetTarget self).m_estimated_pose.isValid = false ∧
    (resetTarget self).m_target_pose = self.m_target_pose :=
  ⟨rfl, rfl, rfl, rfl, rfl, rfl⟩

/-- C9 as stated fails. From a new estimator, with no call of `setTargetPose`,
`setTargetImage` with a frame whose depth pose is `pose 2` and then
`setTargetImage` with a frame whose depth pose is `pose 3`: the target pose
is `pose 2`, not the depth pose of the second frame. -/
theorem second_target_image_keeps_pose :
    ([Op.setTargetImage (Example.frame (Example.pose 2))].all
        fun op => !op.isSetTargetPose) = true ∧
    (Example.frame (Example.pose 3)).calibration.map (fun c => c.depth_pose) =
      some (Example.pose 3) ∧
    Except.map (fun s => (s.m_target_pose, s.m_target_features))
      ((run Example.working (new 3 false 0)
          [Op.setTargetImage (Example.frame (Example.pose 2))]).bind
        fun s => setTargetImage s (Example.frame (Example.pose 3))) =
      .ok (Example.pose 2, FeatureSet.new) ∧
    Example.pose 2 ≠ Example.pose 3 := by
  refine ⟨rfl, rfl, rfl, by decide⟩

/-- C9, amended: for a calibrated frame `f`, `setTargetImage(f)` returns and
leaves the target feature set empty and `f` as target frame; when the
target pose was not valid before the call (as in a new estimator) the target
pose becomes the depth pose of `f`, and when it was already valid (set by
`setTargetPose` or initialised by an earlier `setTargetImage`) it is kept. -/
theorem setTargetImage_initialises_invalid_pose
    (self : RelativePoseEstimatorFromRgbFeatures) (f : RGBDImage)
    (calibration : RGBDCalibration) (hcal : f.calibration = some calibration) :
    ∃ s, setTargetImage self f = .ok s ∧ s.m_target_features = FeatureSet.new ∧
      s.m_target_image = some f ∧
      (self.m_target_pose.isValid = false → s.m_target_pose = calibration.depth_pose) ∧
      (self.m_target_pose.isValid = true → s.m_target_pose = self.m_target_pose) ∧
      (∀ min_matches postprocess feature_parameters,
        (new min_matches postprocess feature_parameters).m_target_pose.isValid = false) := by
  unfold setTargetImage
  rw [hcal]
  cases hv : self.m_target_pose.isValid with
  | false =>
    refine ⟨_, rfl, rfl, ?_, ?_, ?_, fun _ _ _ => rfl⟩
    · simp [hv]
    · intro _
      simp [hv]
    · intro h
      cases h
  | true =>
    refine ⟨_, rfl, rfl, ?_, ?_, ?_, fun _ _ _ => rfl⟩
    · simp [hv]
    · intro h
      cases h
    · intro _
      simp [hv]

/-- C9, amended, at a concrete input: a new estimator and a frame with depth
pose `pose 2`. -/
theorem setTargetImage_initialises_invalid_pose_witness :
    ∃ s, setTargetImage (new 3 false 0) (Example.frame (Example.pose 2)) = .ok s ∧
      s.m_target_features = FeatureSet.new ∧
      s.m_target_image = some (Example.frame (Example.pose 2)) ∧
      ((new 3 false 0).m_target_pose.isValid = false →
        s.m_target_pose = (Example.calibration (Example.pose 2)).depth_pose) ∧
      ((new 3 false 0).m_target_pose.isValid = true →
        s.m_target_pose = (new 3 false 0).m_target_pose) ∧
      (∀ min_matches postprocess feature_parameters,
        (new min_matches postprocess feature_parameters).m_target_pose.isValid = false) :=
  setTargetImage_initialises_invalid_pose (new 3 false 0) (Example.frame (Example.pose 2))
    (Example.calibration (Example.pose 2)) rfl

end ntk
